import Mathlib

/-!
Shallow embedding of the FastAPI e-commerce backend (src/main.py, src/schemas.py).

Modelling conventions:
- Monetary amounts (SQL `Float` columns, Python floats) are modelled as `ℚ`.
  Every equality the spec claims about amounts is exact (products and sums of
  the stored values), so rational arithmetic is faithful for those claims.
- The database session is modelled as a record of three lists (products,
  customers, orders); `query(...).filter(Model.id == x).first()` becomes
  `List.find?`.  Autoincrement primary keys are modelled by `freshId`
  (one more than the largest id present).
- `datetime.date` / `datetime.datetime` are modelled as plain structures of
  numeric fields; `strftime` is modelled by zero-padded formatting functions.
- Pydantic partial-update schemas (`exclude_unset=True`) are modelled with
  `Option` fields: `some v` means the field was present in the payload.
  A field provided explicitly as JSON `null` is not distinguished from an
  absent field (no claim exercises that corner).
- Endpoints raising `HTTPException` are modelled with `Except HTTPError`.
-/

namespace Store

/-- Calendar date, modelling `datetime.date`. -/
structure Date where
  year : Nat
  month : Nat
  day : Nat
deriving DecidableEq

/-- Timestamp, modelling `datetime.datetime`. -/
structure DateTime where
  year : Nat
  month : Nat
  day : Nat
  hour : Nat
  minute : Nat
  second : Nat
deriving DecidableEq

def pad2 (n : Nat) : String :=
  if n < 10 then "0" ++ toString n else toString n

def pad4 (n : Nat) : String :=
  if n < 10 then "000" ++ toString n
  else if n < 100 then "00" ++ toString n
  else if n < 1000 then "0" ++ toString n
  else toString n

/-- Models `d.strftime('%Y-%m-%d')` (also `d.isoformat()` for dates). -/
def formatDate (d : Date) : String :=
  pad4 d.year ++ "-" ++ pad2 d.month ++ "-" ++ pad2 d.day

/-- Models `t.strftime('%Y-%m-%d %H:%M')` (minutes precision, seconds dropped). -/
def formatDateTimeHM (t : DateTime) : String :=
  pad4 t.year ++ "-" ++ pad2 t.month ++ "-" ++ pad2 t.day ++ " "
    ++ pad2 t.hour ++ ":" ++ pad2 t.minute

/-- Row of table `store_product` (class `Product` in src/main.py). -/
structure Product where
  id : Nat
  name : String
  price : ℚ
  category_id : Nat
  description : Option String
  image : Option String
  is_sale : Bool
  sale_price : ℚ
deriving DecidableEq

/-- Row of table `store_customer` (class `Customer` in src/main.py). -/
structure Customer where
  id : Nat
  first_name : String
  last_name : String
  phone : Option String
  email : String
  password : String
deriving DecidableEq

/-- Row of table `store_order` (class `Order` in src/main.py). -/
structure Order where
  id : Nat
  product_id : Nat
  customer_id : Nat
  quantity : ℤ
  address : Option String
  phone : Option String
  date : Option Date
  status : Bool
  date_shipped : Option DateTime
deriving DecidableEq

/-- Database state: the three tables the endpoints touch. -/
structure DB where
  products : List Product
  customers : List Customer
  orders : List Order
deriving DecidableEq

/-- Models `db.query(Product).filter(Product.id == pid).first()`. -/
def DB.findProduct (db : DB) (pid : Nat) : Option Product :=
  db.products.find? (fun p => p.id == pid)

/-- Models `db.query(Customer).filter(Customer.id == cid).first()`. -/
def DB.findCustomer (db : DB) (cid : Nat) : Option Customer :=
  db.customers.find? (fun c => c.id == cid)

/-- Models `db.query(Order).filter(Order.id == oid).first()`. -/
def DB.findOrder (db : DB) (oid : Nat) : Option Order :=
  db.orders.find? (fun o => o.id == oid)

/-- Models an autoincrement primary key: one more than the largest id used. -/
def freshId (ids : List Nat) : Nat :=
  ids.foldr max 0 + 1

/-- Models `404` / error responses raised via `HTTPException(status_code, detail)`. -/
structure HTTPError where
  status : Nat
  detail : String
deriving DecidableEq

/-- Pricing expression inlined at the four computation sites of src/main.py
(lines 188, 254, 323, 339):
`product.sale_price if product.is_sale and product.sale_price > 0 else product.price`. -/
def linePrice (p : Product) : ℚ :=
  if p.is_sale ∧ 0 < p.sale_price then p.sale_price else p.price

/-- Modelled from the spec's words (§4.1 Pricing Resolver), for refinement
against `linePrice`: return `sale_price` when `is_sale == true` AND
`sale_price > 0`; otherwise return `price`. -/
def effectivePriceSpec (p : Product) : ℚ :=
  if p.is_sale = true ∧ p.sale_price > 0 then p.sale_price else p.price

/-- One element of the `items_list` field of the enriched view. -/
structure OrderItem where
  product_name : String
  quantity : ℤ
  price : ℚ
deriving DecidableEq

/-- Enriched order view (schema `DjangoOrderResponse` in src/schemas.py). -/
structure EnrichedView where
  id : Nat
  full_name : String
  email : String
  shipping_address : String
  amount_paid : ℚ
  date_ordered : Option String
  shipped : Bool
  date_shipped : Option String
  items_list : List OrderItem
deriving DecidableEq

/-- Models `order.address or "No address provided"` (`None` and `""` are falsy). -/
def addressOr (a : Option String) : String :=
  match a with
  | some s => if s = "" then "No address provided" else s
  | none => "No address provided"

/-- Helper `enrich_order_details(order, db)` of src/main.py: joins the order to
its product and customer, returns `none` when either lookup fails. -/
def enrich_order_details (o : Order) (db : DB) : Option EnrichedView :=
  match db.findProduct o.product_id, db.findCustomer o.customer_id with
  | some product, some customer =>
    let price := linePrice product
    let amount_paid := price * o.quantity
    some
      { id := o.id
        full_name := (customer.first_name ++ " " ++ customer.last_name).trim
        email := customer.email
        shipping_address := addressOr o.address
        amount_paid := amount_paid
        date_ordered := o.date.map formatDate
        shipped := o.status
        date_shipped := o.date_shipped.map formatDateTimeHM
        items_list := [{ product_name := product.name, quantity := o.quantity, price := price }] }
  | _, _ => none

/-- Payload schema `CustomerCreate` (src/schemas.py). -/
structure CustomerCreate where
  first_name : String
  last_name : String
  phone : Option String
  email : String
  password : String
deriving DecidableEq

/-- Row inserted by `create_customer`: `Customer(**customer.dict())` with an
autoincrement id. -/
def newCustomer (c : CustomerCreate) (db : DB) : Customer :=
  { id := freshId (db.customers.map (fun x => x.id))
    first_name := c.first_name
    last_name := c.last_name
    phone := c.phone
    email := c.email
    password := c.password }

/-- Endpoint `POST /customers` (`create_customer` in src/main.py): returns the
existing record when the email is already registered, else inserts a new row.
Returns the resulting database and the returned customer record. -/
def create_customer (c : CustomerCreate) (db : DB) : DB × Customer :=
  match db.customers.find? (fun x => x.email == c.email) with
  | some existing => (db, existing)
  | none =>
    ({ db with customers := db.customers ++ [newCustomer c db] }, newCustomer c db)

/-- Payload schema `ProductUpdate` (src/schemas.py): every field optional;
`some v` models a field present in the payload. -/
structure ProductUpdate where
  name : Option String
  price : Option ℚ
  category_id : Option Nat
  description : Option String
  image : Option String
  is_sale : Option Bool
  sale_price : Option ℚ
deriving DecidableEq

/-- Field-wise application of `product.dict(exclude_unset=True)` followed by
`setattr` in `update_product`: present fields overwrite, absent fields are
left untouched. -/
def applyProductPatch (u : ProductUpdate) (p : Product) : Product :=
  { p with
    name := u.name.getD p.name
    price := u.price.getD p.price
    category_id := u.category_id.getD p.category_id
    description := match u.description with
      | some d => some d
      | none => p.description
    image := match u.image with
      | some i => some i
      | none => p.image
    is_sale := u.is_sale.getD p.is_sale
    sale_price := u.sale_price.getD p.sale_price }

/-- The create branch of `update_product` builds `Product(id=product_id,
**product.dict())`, passing every payload field, set or not.  A row whose
`name`, `price`, `category_id`, `is_sale` or `sale_price` column is NULL is
outside the well-formed row type modelled here, so the create branch is
modelled for payloads that specify those five fields (`description` and
`image` are nullable columns, so an absent payload field simply yields NULL). -/
def productOfPayload (pid : Nat) (u : ProductUpdate) : Option Product :=
  match u.name, u.price, u.category_id, u.is_sale, u.sale_price with
  | some n, some pr, some ci, some s, some sp =>
    some
      { id := pid
        name := n
        price := pr
        category_id := ci
        description := u.description
        image := u.image
        is_sale := s
        sale_price := sp }
  | _, _, _, _, _ => none

/-- Endpoint `PUT /products/{product_id}` (`update_product` in src/main.py):
upsert — creates the product with the given id when absent, else applies the
partial update.  Result is `none` only when the create branch falls outside
the well-formed row type (see `productOfPayload`). -/
def update_product (pid : Nat) (u : ProductUpdate) (db : DB) :
    Option (DB × Product) :=
  match db.findProduct pid with
  | none =>
    match productOfPayload pid u with
    | some new_product =>
      some ({ db with products := db.products ++ [new_product] }, new_product)
    | none => none
  | some db_product =>
    let p2 := applyProductPatch u db_product
    some
      ({ db with products := db.products.map (fun x => if x.id == pid then p2 else x) }, p2)

/-- Payload schema `OrderUpdate` (src/schemas.py): every field optional;
`some v` models a field present in the payload. -/
structure OrderUpdate where
  product_id : Option Nat
  customer_id : Option Nat
  quantity : Option ℤ
  address : Option String
  phone : Option String
  status : Option Bool
deriving DecidableEq

/-- Field-wise application of `order.dict(exclude_unset=True)` followed by the
`setattr` loop in `update_order`: present fields overwrite, absent fields are
left untouched, and a present `status` field additionally runs
`if value and not db_order.date_shipped: date_shipped = now()`
`elif not value: date_shipped = None`. -/
def applyOrderPatch (u : OrderUpdate) (now : DateTime) (o : Order) : Order :=
  let ds : Option DateTime :=
    match u.status with
    | some v =>
      if v = true ∧ o.date_shipped = none then some now
      else if v = false then none
      else o.date_shipped
    | none => o.date_shipped
  { o with
    product_id := u.product_id.getD o.product_id
    customer_id := u.customer_id.getD o.customer_id
    quantity := u.quantity.getD o.quantity
    address := match u.address with
      | some a => some a
      | none => o.address
    phone := match u.phone with
      | some ph => some ph
      | none => o.phone
    status := u.status.getD o.status
    date_shipped := ds }

/-- Database after committing an updated row of `store_order`. -/
def commitOrder (oid : Nat) (o2 : Order) (db : DB) : DB :=
  { db with orders := db.orders.map (fun x => if x.id == oid then o2 else x) }

/-- Endpoint `PUT /orders/{order_id}` (`update_order` in src/main.py):
404 when the order is absent; otherwise applies the partial update, commits,
and returns `enrich_order_details` of the refreshed row (which is `none`
when the product or customer reference dangles). -/
def update_order (oid : Nat) (u : OrderUpdate) (now : DateTime) (db : DB) :
    Except HTTPError (DB × Option EnrichedView) :=
  match db.findOrder oid with
  | none => .error { status := 404, detail := "Order not found" }
  | some db_order =>
    let o2 := applyOrderPatch u now db_order
    let db2 := commitOrder oid o2 db
    .ok (db2, enrich_order_details o2 db2)

/-- Insertion step for descending sort by id. -/
def insertDescById (o : Order) : List Order → List Order
  | [] => [o]
  | x :: xs => if x.id ≤ o.id then o :: x :: xs else x :: insertDescById o xs

/-- Models `query(Order).order_by(Order.id.desc())`. -/
def sortByIdDesc : List Order → List Order
  | [] => []
  | x :: xs => insertDescById x (sortByIdDesc xs)

/-- Endpoint `GET /orders` (`get_all_orders` in src/main.py): newest-id-first,
optional shipped filter, offset/limit pagination, per-order enrichment with
`Absent` results dropped (`[res for res in response_list if res is not None]`,
modelled by `filterMap id` after the `map`). -/
def get_all_orders (skip limit : Nat) (shipped : Option Bool) (db : DB) :
    List EnrichedView :=
  let sorted := sortByIdDesc db.orders
  let filtered : List Order :=
    match shipped with
    | some b => sorted.filter (fun o => o.status == b)
    | none => sorted
  let orders := (filtered.drop skip).take limit
  (orders.map (fun o => enrich_order_details o db)).filterMap id

/-- Endpoint `GET /orders/{order_id}` (`get_order` in src/main.py): 404 with
"Order not found" when the order is absent, a distinct 404 when enrichment
returns `Absent`. -/
def get_order (oid : Nat) (db : DB) : Except HTTPError EnrichedView :=
  match db.findOrder oid with
  | none => .error { status := 404, detail := "Order not found" }
  | some o =>
    match enrich_order_details o db with
    | none =>
      .error { status := 404
               detail := "Associated product or customer not found for this order" }
    | some enriched => .ok enriched

/-- Endpoint `GET /orders-shipped` (`get_orders_shipped` in src/main.py). -/
def get_orders_shipped (db : DB) : List EnrichedView :=
  let shipped_orders := db.orders.filter (fun o => o.status == true)
  ((shipped_orders.map (fun o => enrich_order_details o db)).filterMap id)

/-- Endpoint `GET /orders-unshipped` (`get_orders_unshipped` in src/main.py). -/
def get_orders_unshipped (db : DB) : List EnrichedView :=
  let unshipped_orders := db.orders.filter (fun o => o.status == false)
  ((unshipped_orders.map (fun o => enrich_order_details o db)).filterMap id)

/-- Payload schema `OrderCreate` (src/schemas.py). -/
structure OrderCreate where
  product_id : Nat
  customer_id : Nat
  quantity : ℤ
  address : Option String
  phone : Option String
deriving DecidableEq

/-- Response schema `OrderResponse` (src/schemas.py). -/
structure OrderResponse where
  id : Nat
  product_id : Nat
  customer_id : Nat
  quantity : ℤ
  address : Option String
  phone : Option String
  date_ordered : Option String
  status : Bool
  date_shipped : Option String
  amount_paid : ℚ
  customer_email : String
deriving DecidableEq

/-- Endpoint `POST /orders` (`create_order` in src/main.py): 404 when the
referenced product or customer is absent; otherwise inserts the order (date
defaults to today, status false, date_shipped NULL) and computes
`amount_paid` from the inline pricing expression (line 254). -/
def create_order (oc : OrderCreate) (today : Date) (db : DB) :
    Except HTTPError (DB × OrderResponse) :=
  match db.findProduct oc.product_id with
  | none =>
    .error { status := 404
             detail := "Product with ID " ++ toString oc.product_id ++ " not found" }
  | some product =>
    match db.findCustomer oc.customer_id with
    | none => .error { status := 404, detail := "Customer not found" }
    | some customer =>
      let db_order : Order :=
        { id := freshId (db.orders.map (fun x => x.id))
          product_id := oc.product_id
          customer_id := oc.customer_id
          quantity := oc.quantity
          address := oc.address
          phone := oc.phone
          date := some today
          status := false
          date_shipped := none }
      let db2 := { db with orders := db.orders ++ [db_order] }
      let price := linePrice product
      let amount_paid := price * db_order.quantity
      .ok (db2,
        { id := db_order.id
          product_id := db_order.product_id
          customer_id := db_order.customer_id
          quantity := db_order.quantity
          address := db_order.address
          phone := db_order.phone
          date_ordered := db_order.date.map formatDate
          status := db_order.status
          date_shipped := db_order.date_shipped.map formatDateTimeHM
          amount_paid := amount_paid
          customer_email := customer.email })

/-- Response schema `ProductAnalysisResponse` (src/main.py). -/
structure ProductAnalysisResponse where
  product_id : Nat
  product_name : String
  total_revenue : ℚ
  total_quantity_sold : ℤ
deriving DecidableEq

/-- Models `db.query(Order).filter(Order.product_id == pid).all()`. -/
def ordersFor (db : DB) (pid : Nat) : List Order :=
  db.orders.filter (fun o => o.product_id == pid)

/-- Summed quantity of the group of orders with this product id (the SQL
`func.sum(Order.quantity)` over the group). -/
def totalQty (db : DB) (pid : Nat) : ℤ :=
  ((ordersFor db pid).map (fun o => o.quantity)).sum

/-- Endpoint `GET /analysis/revenue/{product_id}`
(`get_total_revenue_per_product` in src/main.py): 404 when the product is
absent, else one pass over the product's orders accumulating
`total_revenue += order.quantity * price` (inline pricing expression, line
323) and `total_quantity += order.quantity`. -/
def get_total_revenue_per_product (pid : Nat) (db : DB) :
    Except HTTPError ProductAnalysisResponse :=
  match db.findProduct pid with
  | none =>
    .error { status := 404
             detail := "Product with ID " ++ toString pid ++ " not found" }
  | some product =>
    let orders := ordersFor db pid
    let totals : ℚ × ℤ :=
      orders.foldl
        (fun acc o => (acc.1 + (o.quantity : ℚ) * linePrice product, acc.2 + o.quantity))
        (0, 0)
    .ok { product_id := pid
          product_name := product.name
          total_revenue := totals.1
          total_quantity_sold := totals.2 }

/-- Models the SQL query of `get_highest_selling_product`:
`query(Order.product_id, func.sum(Order.quantity)).group_by(Order.product_id)
.order_by(func.sum(Order.quantity).desc()).first()` — some product id whose
group has maximal summed quantity (ties broken by an unspecified but
deterministic iteration order, here: the scan keeps the earlier candidate). -/
def top_selling (db : DB) : Option Nat :=
  match (db.orders.map (fun o => o.product_id)).dedup with
  | [] => none
  | k :: ks =>
    some (ks.foldl (fun best k2 => if totalQty db best < totalQty db k2 then k2 else best) k)

/-- Endpoint `GET /analysis/highest-selling` (`get_highest_selling_product` in
src/main.py): 404 "No sales data found" when there are no orders; 404 when the
winning product id no longer resolves; else returns the product with its
summed quantity and recomputed revenue (inline pricing expression, line 339). -/
def get_highest_selling_product (db : DB) :
    Except HTTPError ProductAnalysisResponse :=
  match top_selling db with
  | none => .error { status := 404, detail := "No sales data found" }
  | some pid =>
    match db.findProduct pid with
    | none =>
      .error { status := 404
               detail := "Product with ID " ++ toString pid ++ " not found" }
    | some product =>
      let orders := ordersFor db product.id
      let total_revenue : ℚ :=
        orders.foldl (fun acc o => acc + (o.quantity : ℚ) * linePrice product) 0
      .ok { product_id := product.id
            product_name := product.name
            total_revenue := total_revenue
            total_quantity_sold := totalQty db pid }

/-! ### Sample fixtures used by witness theorems -/

def sampleProduct : Product :=
  { id := 1, name := "Widget", price := 100, category_id := 1,
    description := none, image := none, is_sale := true, sale_price := 80 }

def sampleCustomer : Customer :=
  { id := 1, first_name := "John", last_name := "Doe", phone := none,
    email := "john@example.com", password := "pw" }

def sampleOrder : Order :=
  { id := 1, product_id := 1, customer_id := 1, quantity := 3,
    address := some "123 Main St", phone := none, date := none,
    status := false, date_shipped := none }

def sampleDB : DB :=
  { products := [sampleProduct], customers := [sampleCustomer], orders := [sampleOrder] }

def danglingOrder : Order :=
  { id := 7, product_id := 99, customer_id := 1, quantity := 2,
    address := none, phone := none, date := none,
    status := false, date_shipped := none }

def danglingDB : DB :=
  { products := [sampleProduct], customers := [sampleCustomer], orders := [danglingOrder] }

def sampleNow : DateTime :=
  { year := 2024, month := 1, day := 2, hour := 3, minute := 4, second := 5 }

def lonelyDB : DB :=
  { products := [sampleProduct], customers := [], orders := [] }

def emptyDB : DB :=
  { products := [], customers := [], orders := [] }

def sampleCustomerCreate : CustomerCreate :=
  { first_name := "John", last_name := "Doe", phone := none,
    email := "john@example.com", password := "pw" }

def fullProductUpdate : ProductUpdate :=
  { name := some "New", price := some 10, category_id := some 1,
    description := none, image := none, is_sale := some false,
    sale_price := some 0 }

/-! ### Helper lemmas -/

theorem linePrice_eq_spec (p : Product) : linePrice p = effectivePriceSpec p := rfl

theorem foldl_add_sum {α M : Type} [AddCommMonoid M] (f : α → M) :
    ∀ (l : List α) (init : M),
      l.foldl (fun a x => a + f x) init = init + (l.map f).sum := by
  intro l
  induction l with
  | nil => intro init; simp
  | cons x xs ih =>
    intro init
    simp only [List.foldl_cons, List.map_cons, List.sum_cons, ih, add_assoc]

theorem foldl_pair_sum {α : Type} (f : α → ℚ) (g : α → ℤ) :
    ∀ (l : List α) (init : ℚ × ℤ),
      l.foldl (fun acc o => (acc.1 + f o, acc.2 + g o)) init
        = (init.1 + (l.map f).sum, init.2 + (l.map g).sum) := by
  intro l
  induction l with
  | nil => intro init; simp
  | cons x xs ih =>
    intro init
    simp only [List.foldl_cons, List.map_cons, List.sum_cons, ih]
    rw [add_assoc, add_assoc]

theorem find_append_of_none {α : Type} (p : α → Bool) (l1 l2 : List α)
    (h : l1.find? p = none) : (l1 ++ l2).find? p = l2.find? p := by
  induction l1 with
  | nil => simp
  | cons x xs ih =>
    simp only [List.cons_append, List.find?_cons] at h ⊢
    cases hx : p x with
    | true => simp [hx] at h
    | false =>
      simp only [hx] at h ⊢
      exact ih h

theorem foldl_argmax_mem (f : Nat → ℤ) :
    ∀ (ks : List Nat) (k : Nat),
      ks.foldl (fun best k2 => if f best < f k2 then k2 else best) k ∈ k :: ks := by
  intro ks
  induction ks with
  | nil => intro k; simp
  | cons a as ih =>
    intro k
    simp only [List.foldl_cons]
    by_cases h : f k < f a
    · simp only [if_pos h]
      rcases List.mem_cons.mp (ih a) with h1 | h1
      · simp_all
      · exact List.mem_cons_of_mem _ (List.mem_cons_of_mem _ h1)
    · simp only [if_neg h]
      rcases List.mem_cons.mp (ih k) with h1 | h1
      · simp_all
      · exact List.mem_cons_of_mem _ (List.mem_cons_of_mem _ h1)

theorem foldl_argmax_le (f : Nat → ℤ) :
    ∀ (ks : List Nat) (k x : Nat), x ∈ k :: ks →
      f x ≤ f (ks.foldl (fun best k2 => if f best < f k2 then k2 else best) k) := by
  intro ks
  induction ks with
  | nil =>
    intro k x hx
    simp at hx
    subst hx
    simp
  | cons a as ih =>
    intro k x hx
    simp only [List.foldl_cons]
    rcases List.mem_cons.mp hx with rfl | hx2
    · by_cases h : f x < f a
      · simp only [if_pos h]
        exact le_of_lt (lt_of_lt_of_le h (ih a a (by simp)))
      · simp only [if_neg h]
        exact ih x x (by simp)
    · rcases List.mem_cons.mp hx2 with rfl | hx3
      · by_cases h : f k < f x
        · simp only [if_pos h]
          exact ih x x (by simp)
        · simp only [if_neg h]
          exact le_trans (not_lt.mp h) (ih k k (by simp))
      · by_cases h : f k < f a
        · simp only [if_pos h]
          exact ih a x (by simp [hx3])
        · simp only [if_neg h]
          exact ih k x (by simp [hx3])

theorem mem_filterMap_id_map {α β : Type} (f : α → Option β) (l : List α) (v : β) :
    v ∈ (l.map f).filterMap id ↔ ∃ o ∈ l, f o = some v := by
  simp [List.mem_filterMap, List.mem_map]

theorem enrich_dangling_none (db : DB) (o : Order)
    (h : db.findProduct o.product_id = none ∨ db.findCustomer o.customer_id = none) :
    enrich_order_details o db = none := by
  unfold enrich_order_details
  rcases h with h | h
  · rw [h]
  · rw [h]
    cases db.findProduct o.product_id <;> rfl

theorem top_selling_eq_none_iff (db : DB) :
    top_selling db = none ↔ db.orders = [] := by
  constructor
  · intro h
    cases ho : db.orders with
    | nil => rfl
    | cons o os =>
      have hmem : o.product_id ∈ (db.orders.map (fun x => x.product_id)).dedup := by
        rw [List.mem_dedup]
        exact List.mem_map_of_mem _ (by rw [ho]; exact List.mem_cons_self o os)
      unfold top_selling at h
      cases hd : (db.orders.map (fun x => x.product_id)).dedup with
      | nil => rw [hd] at hmem; simp at hmem
      | cons k ks => rw [hd] at h; simp at h
  · intro h
    unfold top_selling
    rw [h]
    rfl

theorem top_selling_spec (db : DB) (pid : Nat) (h : top_selling db = some pid) :
    (∃ o ∈ db.orders, o.product_id = pid)
    ∧ ∀ q, (∃ o ∈ db.orders, o.product_id = q) → totalQty db q ≤ totalQty db pid := by
  unfold top_selling at h
  cases hd : (db.orders.map (fun x => x.product_id)).dedup with
  | nil => rw [hd] at h; exact absurd h (by simp)
  | cons k ks =>
    rw [hd] at h
    have hpid : pid =
        ks.foldl (fun best k2 => if totalQty db best < totalQty db k2 then k2 else best) k := by
      injection h with h2
      exact h2.symm
    constructor
    · have hmem : pid ∈ k :: ks := hpid ▸ foldl_argmax_mem (totalQty db) ks k
      have hmem2 : pid ∈ (db.orders.map (fun x => x.product_id)).dedup := by
        rw [hd]
        exact hmem
      rw [List.mem_dedup] at hmem2
      obtain ⟨o, ho, he⟩ := List.mem_map.mp hmem2
      exact ⟨o, ho, he⟩
    · rintro q ⟨o, ho, he⟩
      have hq : q ∈ k :: ks := by
        rw [← hd, List.mem_dedup]
        exact List.mem_map.mpr ⟨o, ho, he⟩
      have hle := foldl_argmax_le (totalQty db) ks k q hq
      rw [← hpid] at hle
      exact hle

/-! ### Claim theorems -/

/-- C1: for every product, the effective price used at every computation site
(enrichment, order creation, revenue aggregation, highest-selling aggregation)
equals `sale_price` when `is_sale` is true and `sale_price > 0`, and equals
`price` otherwise; in particular, for every product with `is_sale` false, the
effective price equals `price` regardless of `sale_price`. -/
theorem effective_price_sites :
    (∀ p : Product, linePrice p = effectivePriceSpec p)
    ∧ (∀ (db : DB) (o : Order) (p : Product) (c : Customer),
        db.findProduct o.product_id = some p →
        db.findCustomer o.customer_id = some c →
        ∃ v, enrich_order_details o db = some v
          ∧ v.amount_paid = effectivePriceSpec p * (o.quantity : ℚ)
          ∧ v.items_list = [{ product_name := p.name, quantity := o.quantity,
                              price := effectivePriceSpec p }])
    ∧ (∀ (db : DB) (oc : OrderCreate) (d : Date) (p : Product) (c : Customer),
        db.findProduct oc.product_id = some p →
        db.findCustomer oc.customer_id = some c →
        ∃ db2 resp, create_order oc d db = .ok (db2, resp)
          ∧ resp.amount_paid = effectivePriceSpec p * (oc.quantity : ℚ))
    ∧ (∀ (db : DB) (pid : Nat) (p : Product),
        db.findProduct pid = some p →
        ∃ r, get_total_revenue_per_product pid db = .ok r
          ∧ r.total_revenue =
              ((ordersFor db pid).map (fun o => (o.quantity : ℚ) * effectivePriceSpec p)).sum)
    ∧ (∀ (db : DB) (pid : Nat) (p : Product),
        top_selling db = some pid →
        db.findProduct pid = some p →
        ∃ r, get_highest_selling_product db = .ok r
          ∧ r.total_revenue =
              ((ordersFor db p.id).map (fun o => (o.quantity : ℚ) * effectivePriceSpec p)).sum)
    ∧ (∀ p : Product, p.is_sale = false → effectivePriceSpec p = p.price) := by
  refine ⟨fun p => rfl, ?_, ?_, ?_, ?_, ?_⟩
  · intro db o p c hp hc
    unfold enrich_order_details
    rw [hp, hc]
    exact ⟨_, rfl, rfl, rfl⟩
  · intro db oc d p c hp hc
    unfold create_order
    rw [hp, hc]
    exact ⟨_, _, rfl, rfl⟩
  · intro db pid p hp
    unfold get_total_revenue_per_product
    rw [hp]
    refine ⟨_, rfl, ?_⟩
    simp only [linePrice_eq_spec]
    rw [foldl_pair_sum (fun o : Order => (o.quantity : ℚ) * effectivePriceSpec p)
      (fun o : Order => o.quantity) (ordersFor db pid) (0, 0)]
    simp
  · intro db pid p htop hp
    simp only [get_highest_selling_product, htop, hp]
    refine ⟨_, rfl, ?_⟩
    simp only [linePrice_eq_spec]
    rw [foldl_add_sum (fun o : Order => (o.quantity : ℚ) * effectivePriceSpec p)
      (ordersFor db p.id) 0]
    simp
  · intro p h
    unfold effectivePriceSpec
    rw [h]
    simp

theorem effective_price_sites_witness :
    sampleDB.findProduct sampleOrder.product_id = some sampleProduct
    ∧ (∃ v, enrich_order_details sampleOrder sampleDB = some v
        ∧ v.amount_paid = effectivePriceSpec sampleProduct * (sampleOrder.quantity : ℚ)
        ∧ v.items_list = [{ product_name := sampleProduct.name,
                            quantity := sampleOrder.quantity,
                            price := effectivePriceSpec sampleProduct }])
    ∧ effectivePriceSpec { sampleProduct with is_sale := false }
        = ({ sampleProduct with is_sale := false } : Product).price :=
  ⟨by decide,
   effective_price_sites.2.1 sampleDB sampleOrder sampleProduct sampleCustomer
     (by decide) (by decide),
   effective_price_sites.2.2.2.2.2 { sampleProduct with is_sale := false } (by decide)⟩

/-- C2: for every order whose product and customer both exist, the enriched
view's `amount_paid` equals the product's effective price times the order's
quantity; in particular, price 100, sale price 80 with `is_sale` true and
quantity 3 gives 240. -/
theorem amount_paid_formula :
    ∀ (db : DB) (o : Order) (p : Product) (c : Customer),
      db.findProduct o.product_id = some p →
      db.findCustomer o.customer_id = some c →
      ∃ v, enrich_order_details o db = some v ∧
        v.amount_paid = effectivePriceSpec p * (o.quantity : ℚ) := by
  intro db o p c hp hc
  unfold enrich_order_details
  rw [hp, hc]
  exact ⟨_, rfl, rfl⟩

theorem amount_paid_formula_witness :
    sampleDB.findProduct sampleOrder.product_id = some sampleProduct
    ∧ ∃ v, enrich_order_details sampleOrder sampleDB = some v
        ∧ v.amount_paid = effectivePriceSpec sampleProduct * (sampleOrder.quantity : ℚ)
        ∧ v.amount_paid = 240 := by
  refine ⟨by decide, ?_⟩
  obtain ⟨v, hv, ha⟩ := amount_paid_formula sampleDB sampleOrder sampleProduct
    sampleCustomer (by decide) (by decide)
  exact ⟨v, hv, ha, by rw [ha]; norm_num [effectivePriceSpec, sampleProduct, sampleOrder]⟩

/-- C3: for every existing order and partial update whose payload includes
`status`: new status true with `date_shipped` unset stamps the current
timestamp; new status true with `date_shipped` already set leaves it
unchanged; new status false clears `date_shipped` regardless of prior value. -/
theorem update_order_status_rule :
    ∀ (db : DB) (oid : Nat) (u : OrderUpdate) (now : DateTime) (o : Order),
      db.findOrder oid = some o →
      update_order oid u now db =
        .ok (commitOrder oid (applyOrderPatch u now o) db,
             enrich_order_details (applyOrderPatch u now o)
               (commitOrder oid (applyOrderPatch u now o) db))
      ∧ (u.status = some true → o.date_shipped = none →
          (applyOrderPatch u now o).date_shipped = some now)
      ∧ (∀ t, u.status = some true → o.date_shipped = some t →
          (applyOrderPatch u now o).date_shipped = some t)
      ∧ (u.status = some false →
          (applyOrderPatch u now o).date_shipped = none) := by
  intro db oid u now o hfind
  refine ⟨?_, ?_, ?_, ?_⟩
  · unfold update_order
    rw [hfind]
  · intro hs hds
    simp [applyOrderPatch, hs, hds]
  · intro t hs hds
    simp [applyOrderPatch, hs, hds]
  · intro hs
    simp [applyOrderPatch, hs]

theorem update_order_status_rule_witness :
    sampleDB.findOrder 1 = some sampleOrder
    ∧ (applyOrderPatch
        { product_id := none, customer_id := none, quantity := none,
          address := none, phone := none, status := some true }
        sampleNow sampleOrder).date_shipped = some sampleNow := by
  have h := update_order_status_rule sampleDB 1
    { product_id := none, customer_id := none, quantity := none,
      address := none, phone := none, status := some true }
    sampleNow sampleOrder (by decide)
  exact ⟨by decide, h.2.1 rfl rfl⟩

/-- Derived invariant of §3 of the spec: `date_shipped` is set iff `status`. -/
def shipInvariant (o : Order) : Prop :=
  o.status = true ↔ o.date_shipped ≠ none

/-- C4: the invariant `(status == true) iff (date_shipped is set)` holds for
every order after any update through the order update endpoint, assuming it
held for every order before. -/
theorem update_order_keeps_invariant :
    ∀ (db : DB) (oid : Nat) (u : OrderUpdate) (now : DateTime)
      (db2 : DB) (r : Option EnrichedView),
      (∀ o ∈ db.orders, shipInvariant o) →
      update_order oid u now db = .ok (db2, r) →
      ∀ o2 ∈ db2.orders, shipInvariant o2 := by
  intro db oid u now db2 r hinv hupd o2 hmem
  have hpatch : ∀ o : Order, shipInvariant o → shipInvariant (applyOrderPatch u now o) := by
    intro o ho
    unfold shipInvariant at ho ⊢
    cases hs : u.status with
    | none =>
      simp only [applyOrderPatch, hs, Option.getD]
      exact ho
    | some v =>
      cases v with
      | true =>
        by_cases hds : o.date_shipped = none
        · simp [applyOrderPatch, hs, hds]
        · simp [applyOrderPatch, hs, hds]
      | false =>
        simp [applyOrderPatch, hs]
  unfold update_order at hupd
  cases hfind : db.findOrder oid with
  | none => rw [hfind] at hupd; exact absurd hupd (by simp)
  | some o =>
    rw [hfind] at hupd
    have hdb2 : db2 = commitOrder oid (applyOrderPatch u now o) db := by
      cases hupd
      rfl
    rw [hdb2] at hmem
    unfold commitOrder at hmem
    simp only [List.mem_map] at hmem
    obtain ⟨x, hx, hx2⟩ := hmem
    by_cases hid : x.id == oid
    · rw [if_pos hid] at hx2
      have hxo : shipInvariant o :=
        hinv o (List.mem_of_find?_eq_some hfind)
      rw [← hx2]
      exact hpatch o hxo
    · rw [if_neg hid] at hx2
      rw [← hx2]
      exact hinv x hx

theorem update_order_keeps_invariant_witness :
    (∀ o ∈ sampleDB.orders, shipInvariant o)
    ∧ ∀ o2 ∈ (commitOrder 1
        (applyOrderPatch
          { product_id := none, customer_id := none, quantity := none,
            address := none, phone := none, status := some true }
          sampleNow sampleOrder)
        sampleDB).orders, shipInvariant o2 := by
  constructor
  · intro o ho
    simp only [sampleDB, sampleOrder] at ho
    simp only [List.mem_singleton] at ho
    subst ho
    simp [shipInvariant, sampleOrder]
  · exact update_order_keeps_invariant sampleDB 1
      { product_id := none, customer_id := none, quantity := none,
        address := none, phone := none, status := some true }
      sampleNow _ _
      (by intro o ho
          simp only [sampleDB, sampleOrder, List.mem_singleton] at ho
          subst ho
          simp [shipInvariant, sampleOrder])
      rfl

/-- C10: for an existing order whose (post-update) product or customer
reference does not resolve, the order update endpoint still commits the
requested field changes and returns the Absent enrichment result instead of
an associated-entity-missing error. -/
theorem update_order_dangling_commits :
    ∀ (db : DB) (oid : Nat) (u : OrderUpdate) (now : DateTime) (o : Order),
      db.findOrder oid = some o →
      (db.findProduct (applyOrderPatch u now o).product_id = none
        ∨ db.findCustomer (applyOrderPatch u now o).customer_id = none) →
      update_order oid u now db =
        .ok (commitOrder oid (applyOrderPatch u now o) db, none)
      ∧ applyOrderPatch u now o ∈ (commitOrder oid (applyOrderPatch u now o) db).orders := by
  intro db oid u now o hfind hdangle
  have hfind2 : db.orders.find? (fun x => x.id == oid) = some o := hfind
  have hpre : (o.id == oid) = true := by
    have h := List.find?_some hfind2
    simpa using h
  constructor
  · have henr : enrich_order_details (applyOrderPatch u now o)
        (commitOrder oid (applyOrderPatch u now o) db) = none := by
      apply enrich_dangling_none
      rcases hdangle with h | h
      · exact Or.inl h
      · exact Or.inr h
    unfold update_order
    rw [hfind]
    simp only [henr]
  · unfold commitOrder
    simp only [List.mem_map]
    refine ⟨o, List.mem_of_find?_eq_some hfind, ?_⟩
    rw [if_pos hpre]

theorem update_order_dangling_commits_witness :
    danglingDB.findOrder 7 = some danglingOrder
    ∧ update_order 7
        { product_id := none, customer_id := none, quantity := some 5,
          address := none, phone := none, status := none }
        sampleNow danglingDB =
        .ok (commitOrder 7
          (applyOrderPatch
            { product_id := none, customer_id := none, quantity := some 5,
              address := none, phone := none, status := none }
            sampleNow danglingOrder)
          danglingDB, none) := by
  have h := update_order_dangling_commits danglingDB 7
    { product_id := none, customer_id := none, quantity := some 5,
      address := none, phone := none, status := none }
    sampleNow danglingOrder (by decide) (Or.inl (by decide))
  exact ⟨by decide, h.1⟩

/-- C5: for every order whose product or customer reference does not resolve,
enrichment returns Absent; every list-style order endpoint silently drops such
orders from its output, while the single-order lookup surfaces a distinct
associated-entity-missing error. -/
theorem dangling_orders_handling :
    ∀ (db : DB) (o : Order),
      (db.findProduct o.product_id = none ∨ db.findCustomer o.customer_id = none) →
      enrich_order_details o db = none
      ∧ (∀ (skip limit : Nat) (shipped : Option Bool) (v : EnrichedView),
          v ∈ get_all_orders skip limit shipped db →
          ∃ o2, o2 ≠ o ∧ enrich_order_details o2 db = some v)
      ∧ (∀ v : EnrichedView, v ∈ get_orders_shipped db →
          ∃ o2, o2 ≠ o ∧ enrich_order_details o2 db = some v)
      ∧ (∀ v : EnrichedView, v ∈ get_orders_unshipped db →
          ∃ o2, o2 ≠ o ∧ enrich_order_details o2 db = some v)
      ∧ (∀ oid, db.findOrder oid = some o →
          get_order oid db =
            .error { status := 404,
                     detail := "Associated product or customer not found for this order" }
          ∧ ({ status := 404,
               detail := "Associated product or customer not found for this order" } : HTTPError)
              ≠ { status := 404, detail := "Order not found" }) := by
  intro db o hd
  have h1 : enrich_order_details o db = none := enrich_dangling_none db o hd
  have hsrc : ∀ (l : List Order) (v : EnrichedView),
      v ∈ (l.map (fun o2 => enrich_order_details o2 db)).filterMap id →
      ∃ o2, o2 ≠ o ∧ enrich_order_details o2 db = some v := by
    intro l v hv
    rw [mem_filterMap_id_map] at hv
    obtain ⟨o2, _, hs⟩ := hv
    refine ⟨o2, ?_, hs⟩
    intro he
    rw [he, h1] at hs
    exact Option.noConfusion hs
  refine ⟨h1, ?_, ?_, ?_, ?_⟩
  · intro skip limit shipped v hv
    simp only [get_all_orders] at hv
    exact hsrc _ v hv
  · intro v hv
    simp only [get_orders_shipped] at hv
    exact hsrc _ v hv
  · intro v hv
    simp only [get_orders_unshipped] at hv
    exact hsrc _ v hv
  · intro oid hfind
    constructor
    · unfold get_order
      rw [hfind]
      simp only [h1]
    · intro he
      have := congrArg HTTPError.detail he
      simp at this

theorem dangling_orders_handling_witness :
    danglingDB.findProduct danglingOrder.product_id = none
    ∧ enrich_order_details danglingOrder danglingDB = none
    ∧ get_order 7 danglingDB =
        .error { status := 404,
                 detail := "Associated product or customer not found for this order" } := by
  have h := dangling_orders_handling danglingDB danglingOrder (Or.inl (by decide))
  exact ⟨by decide, h.1, (h.2.2.2.2 7 (by decide)).1⟩

/-- C6: the revenue endpoint fails with NotFound exactly when the product does
not exist; when it exists it returns the sum over the product's orders of
quantity times current effective price, together with the summed quantity, and
a product with zero orders yields revenue 0 and quantity 0, not an error. -/
theorem revenue_endpoint_correct :
    ∀ (db : DB) (pid : Nat),
      (db.findProduct pid = none →
        get_total_revenue_per_product pid db =
          .error { status := 404,
                   detail := "Product with ID " ++ toString pid ++ " not found" })
      ∧ (∀ p, db.findProduct pid = some p →
          get_total_revenue_per_product pid db =
            .ok { product_id := pid, product_name := p.name,
                  total_revenue :=
                    ((ordersFor db pid).map
                      (fun o => (o.quantity : ℚ) * effectivePriceSpec p)).sum,
                  total_quantity_sold :=
                    ((ordersFor db pid).map (fun o => o.quantity)).sum })
      ∧ (∀ p, db.findProduct pid = some p → ordersFor db pid = [] →
          get_total_revenue_per_product pid db =
            .ok { product_id := pid, product_name := p.name,
                  total_revenue := 0, total_quantity_sold := 0 }) := by
  intro db pid
  refine ⟨?_, ?_, ?_⟩
  · intro h
    unfold get_total_revenue_per_product
    rw [h]
  · intro p hp
    simp only [get_total_revenue_per_product, hp]
    rw [foldl_pair_sum (fun o : Order => (o.quantity : ℚ) * linePrice p)
      (fun o : Order => o.quantity) (ordersFor db pid) (0, 0)]
    simp [linePrice_eq_spec]
  · intro p hp hempty
    simp only [get_total_revenue_per_product, hp, hempty]
    simp [List.foldl]

theorem revenue_endpoint_correct_witness :
    lonelyDB.findProduct 1 = some sampleProduct
    ∧ ordersFor lonelyDB 1 = []
    ∧ get_total_revenue_per_product 1 lonelyDB =
        .ok { product_id := 1, product_name := sampleProduct.name,
              total_revenue := 0, total_quantity_sold := 0 } :=
  ⟨by decide, by decide,
   (revenue_endpoint_correct lonelyDB 1).2.2 sampleProduct (by decide) (by decide)⟩

/-- C7: highest-selling groups the orders by product id, sums quantity per
group, selects a group with the maximal summed quantity, and returns that
product with its summed quantity and recomputed revenue; it fails with
NotFound exactly when there are no orders or the winning product id no longer
resolves. -/
theorem highest_selling_correct :
    ∀ db : DB,
      (db.orders = [] →
        get_highest_selling_product db =
          .error { status := 404, detail := "No sales data found" })
      ∧ (db.orders ≠ [] → ∃ pid, top_selling db = some pid)
      ∧ (∀ pid, top_selling db = some pid →
          (∃ o ∈ db.orders, o.product_id = pid)
          ∧ (∀ q, (∃ o ∈ db.orders, o.product_id = q) →
              totalQty db q ≤ totalQty db pid))
      ∧ (∀ pid, top_selling db = some pid → db.findProduct pid = none →
          get_highest_selling_product db =
            .error { status := 404,
                     detail := "Product with ID " ++ toString pid ++ " not found" })
      ∧ (∀ pid p, top_selling db = some pid → db.findProduct pid = some p →
          get_highest_selling_product db =
            .ok { product_id := p.id, product_name := p.name,
                  total_revenue :=
                    ((ordersFor db p.id).map
                      (fun o => (o.quantity : ℚ) * effectivePriceSpec p)).sum,
                  total_quantity_sold := totalQty db pid }) := by
  intro db
  refine ⟨?_, ?_, ?_, ?_, ?_⟩
  · intro h
    have ht : top_selling db = none := (top_selling_eq_none_iff db).mpr h
    unfold get_highest_selling_product
    rw [ht]
  · intro h
    cases ht : top_selling db with
    | none => exact absurd ((top_selling_eq_none_iff db).mp ht) h
    | some pid => exact ⟨pid, rfl⟩
  · intro pid h
    exact top_selling_spec db pid h
  · intro pid ht hp
    unfold get_highest_selling_product
    rw [ht]
    simp only [hp]
  · intro pid p ht hp
    simp only [get_highest_selling_product, ht, hp]
    rw [foldl_add_sum (fun o : Order => (o.quantity : ℚ) * linePrice p)
      (ordersFor db p.id) 0]
    simp [linePrice_eq_spec]

theorem highest_selling_correct_witness :
    top_selling sampleDB = some 1
    ∧ sampleDB.findProduct 1 = some sampleProduct
    ∧ get_highest_selling_product sampleDB =
        .ok { product_id := sampleProduct.id, product_name := sampleProduct.name,
              total_revenue :=
                ((ordersFor sampleDB sampleProduct.id).map
                  (fun o => (o.quantity : ℚ) * effectivePriceSpec sampleProduct)).sum,
              total_quantity_sold := totalQty sampleDB 1 } :=
  ⟨by decide, by decide,
   (highest_selling_correct sampleDB).2.2.2.2 1 sampleProduct (by decide) (by decide)⟩

/-- C8: customer creation is idempotent by email: creating twice with the same
email returns the same record both times and creates no duplicate; creating
with an already-registered email returns the existing record. -/
theorem create_customer_idempotent :
    ∀ (c : CustomerCreate) (db : DB),
      ((create_customer c (create_customer c db).1).2 = (create_customer c db).2
        ∧ (create_customer c (create_customer c db).1).1 = (create_customer c db).1)
      ∧ (∀ e, db.customers.find? (fun x => x.email == c.email) = some e →
          create_customer c db = (db, e)) := by
  intro c db
  constructor
  · cases hf : db.customers.find? (fun x => x.email == c.email) with
    | some e =>
      have h1 : create_customer c db = (db, e) := by
        unfold create_customer
        rw [hf]
      simp [h1]
    | none =>
      have h1 : create_customer c db =
          ({ db with customers := db.customers ++ [newCustomer c db] }, newCustomer c db) := by
        unfold create_customer
        rw [hf]
      have hf2 : ({ db with customers := db.customers ++ [newCustomer c db] } : DB).customers.find?
          (fun x => x.email == c.email) = some (newCustomer c db) := by
        show (db.customers ++ [newCustomer c db]).find? (fun x => x.email == c.email)
          = some (newCustomer c db)
        rw [find_append_of_none _ _ _ hf]
        simp [List.find?, newCustomer]
      have h2 : create_customer c ({ db with customers := db.customers ++ [newCustomer c db] }) =
          ({ db with customers := db.customers ++ [newCustomer c db] }, newCustomer c db) := by
        unfold create_customer
        rw [hf2]
      simp [h1, h2]
  · intro e he
    unfold create_customer
    rw [he]

theorem create_customer_idempotent_witness :
    sampleDB.customers.find? (fun x => x.email == sampleCustomerCreate.email)
        = some sampleCustomer
    ∧ create_customer sampleCustomerCreate sampleDB = (sampleDB, sampleCustomer) :=
  ⟨by decide,
   (create_customer_idempotent sampleCustomerCreate sampleDB).2 sampleCustomer (by decide)⟩

/-- C9: `PUT /products/{id}` is an upsert: when the id is absent it creates a
product with that id from the payload; when present it partial-updates,
overwriting exactly the fields present in the payload and leaving omitted
fields untouched. -/
theorem update_product_upsert :
    ∀ (pid : Nat) (u : ProductUpdate) (db : DB),
      (∀ n pr ci s sp, db.findProduct pid = none →
        u.name = some n → u.price = some pr → u.category_id = some ci →
        u.is_sale = some s → u.sale_price = some sp →
        update_product pid u db =
          some ({ db with products := db.products ++
                    [{ id := pid, name := n, price := pr, category_id := ci,
                       description := u.description, image := u.image,
                       is_sale := s, sale_price := sp }] },
                { id := pid, name := n, price := pr, category_id := ci,
                  description := u.description, image := u.image,
                  is_sale := s, sale_price := sp }))
      ∧ (∀ p, db.findProduct pid = some p →
          update_product pid u db =
            some ({ db with products :=
                      db.products.map (fun x => if x.id == pid then applyProductPatch u p else x) },
                  applyProductPatch u p)
          ∧ (applyProductPatch u p).id = p.id
          ∧ (u.name = none → (applyProductPatch u p).name = p.name)
          ∧ (∀ v, u.name = some v → (applyProductPatch u p).name = v)
          ∧ (u.price = none → (applyProductPatch u p).price = p.price)
          ∧ (∀ v, u.price = some v → (applyProductPatch u p).price = v)
          ∧ (u.category_id = none → (applyProductPatch u p).category_id = p.category_id)
          ∧ (∀ v, u.category_id = some v → (applyProductPatch u p).category_id = v)
          ∧ (u.description = none → (applyProductPatch u p).description = p.description)
          ∧ (∀ v, u.description = some v → (applyProductPatch u p).description = some v)
          ∧ (u.image = none → (applyProductPatch u p).image = p.image)
          ∧ (∀ v, u.image = some v → (applyProductPatch u p).image = some v)
          ∧ (u.is_sale = none → (applyProductPatch u p).is_sale = p.is_sale)
          ∧ (∀ v, u.is_sale = some v → (applyProductPatch u p).is_sale = v)
          ∧ (u.sale_price = none → (applyProductPatch u p).sale_price = p.sale_price)
          ∧ (∀ v, u.sale_price = some v → (applyProductPatch u p).sale_price = v)) := by
  intro pid u db
  constructor
  · intro n pr ci s sp hf hn hp hci hs hsp
    unfold update_product
    rw [hf]
    simp [productOfPayload, hn, hp, hci, hs, hsp]
  · intro p hf
    refine ⟨?_, rfl, ?_, ?_, ?_, ?_, ?_, ?_, ?_, ?_, ?_, ?_, ?_, ?_, ?_, ?_⟩
    · unfold update_product
      rw [hf]
    all_goals intro h
    case _ => simp [applyProductPatch, h]
    all_goals first
      | (intro hv; simp [applyProductPatch, hv])
      | simp [applyProductPatch, h]

theorem update_product_upsert_witness :
    emptyDB.findProduct 5 = none
    ∧ update_product 5 fullProductUpdate emptyDB =
        some ({ emptyDB with products := emptyDB.products ++
                  [{ id := 5, name := "New", price := 10, category_id := 1,
                     description := fullProductUpdate.description,
                     image := fullProductUpdate.image,
                     is_sale := false, sale_price := 0 }] },
              { id := 5, name := "New", price := 10, category_id := 1,
                description := fullProductUpdate.description,
                image := fullProductUpdate.image,
                is_sale := false, sale_price := 0 }) :=
  ⟨by decide,
   (update_product_upsert 5 fullProductUpdate emptyDB).1 "New" 10 1 false 0
     (by decide) rfl rfl rfl rfl rfl⟩

end Store
